import Mathlib

/-!
Verification of the RAG-with-reranking workflow notebook
(docs/docs/examples/workflow/rag.ipynb).

The notebook defines a `RAGWorkflow` with four steps (ingest, retrieve,
rerank, synthesize) on top of the llama_index workflow engine.  The step
bodies are translated here directly from the notebook source.  The
external services the steps call (directory reader, vector index builder,
retriever, LLM reranker, response synthesizer) are opaque collaborators
and are modelled as an `Env` record of arbitrary total functions.

The workflow engine itself (`Workflow.run`, event dispatch, `Context.store`)
is library code that is not part of this repository's sources; it is
modelled from the specification's description of the engine (work queue,
dispatch of an event to every step accepting its kind, first Stop event
terminates the run, `NoTerminationError` when the queue drains).
-/

namespace Rag

/-- Opaque document chunks produced by the directory reader. -/
abbrev Document := String

/-- Opaque vector index handle produced by `VectorStoreIndex.from_documents`. -/
abbrev Index := Nat

/-- Opaque retrieved node (`NodeWithScore` in the source). -/
abbrev Node := String

/-- Opaque synthesized response text. -/
abbrev Response := String

/-- The opaque external services the notebook's steps call:
`SimpleDirectoryReader(dirname).load_data()`,
`VectorStoreIndex.from_documents(...)`,
`index.as_retriever(similarity_top_k=2).aretrieve(query)`,
`LLMRerank(...).postprocess_nodes(nodes, query_str=...)` and
`CompactAndRefine(...).asynthesize(query, nodes=...)`.
They are total functions: a run in which they all succeed. -/
structure Env where
  loadData : String → List Document
  buildIndex : List Document → Index
  retrieveNodes : Index → String → List Node
  rerankNodes : List Node → Option String → List Node
  synthesizeResp : Option String → List Node → Response

/-- Modelled from the spec: the per-run `SharedContext` key/value store
(`ctx.store` in the notebook) is engine code absent from the sources; the
spec describes it as a mapping from string key to value with `set`
overwriting and `get` returning a default when the key is absent. -/
abbrev SharedContext (α : Type) : Type := String → Option α

/-- Modelled from the spec: the fresh, empty context created at run start. -/
def SharedContext.empty {α : Type} : SharedContext α := fun _ => none

/-- Modelled from the spec: `set(key, value)` stores a value under key,
overwriting any prior value. -/
def SharedContext.set {α : Type} (ctx : SharedContext α) (k : String) (v : α) :
    SharedContext α :=
  fun k' => if k' = k then some v else ctx k'

/-- Modelled from the spec: `get(key, default)` returns the stored value or
the supplied default if absent. -/
def SharedContext.get {α : Type} (ctx : SharedContext α) (k : String) (d : α) : α :=
  (ctx k).getD d

/-- Modelled from the spec: `get(key, default=None)` as used by the
notebook's rerank and synthesize steps, where the default is Python `None`:
it returns the stored value or nothing. -/
def SharedContext.getOpt {α : Type} (ctx : SharedContext α) (k : String) : Option α :=
  ctx k

/-- Apply a sequence of `set` operations (a linearized history) to a context. -/
def applyOps {α : Type} : List (String × α) → SharedContext α → SharedContext α
  | [], ctx => ctx
  | (k, v) :: rest, ctx => applyOps rest (SharedContext.set ctx k v)

/-- The value written by the last operation of a history that targets key
`k`, if any. -/
def lastSet {α : Type} (k : String) : List (String × α) → Option α
  | [] => none
  | (k', v) :: rest =>
    match lastSet k rest with
    | some w => some w
    | none => if k' = k then some v else none

/-- The payload of a `StartEvent`: the keyword arguments of `w.run(...)`.
The notebook reads the fields `dirname`, `query` and `index` with
`ev.get(...)`, which yields `None` for an absent field; an empty string
models the other falsy value a `not` check rejects. -/
structure StartPayload where
  dirname : Option String
  query : Option String
  index : Option Index
deriving DecidableEq

/-- The payload carried by a `StopEvent`: either the built index (from
`ingest`) or the synthesized response (from `synthesize`). -/
inductive StopResult
  | index (i : Index)
  | response (r : Response)
deriving DecidableEq

/-- The events of the workflow: the built-in `StartEvent` and `StopEvent`
plus the notebook's `RetrieverEvent` and `RerankEvent`, each carrying a
list of nodes. -/
inductive Event
  | start (payload : StartPayload)
  | retriever (nodes : List Node)
  | rerank (nodes : List Node)
  | stop (result : StopResult)
deriving DecidableEq

/-- The event kinds used for dispatch (the type annotations on the steps). -/
inductive Kind
  | startK
  | retrieverK
  | rerankK
  | stopK
deriving DecidableEq

/-- The kind discriminator of an event. -/
def Event.kind : Event → Kind
  | .start _ => .startK
  | .retriever _ => .retrieverK
  | .rerank _ => .rerankK
  | .stop _ => .stopK

/-- Truthiness of an optional string under Python's `not`: absent (`None`)
and the empty string are falsy. -/
def truthyStr : Option String → Bool
  | none => false
  | some s => !(s == "")

/-- `RAGWorkflow.ingest`: reads `dirname` from the start payload, returns
`None` when it is falsy, otherwise loads documents, builds the index and
returns `StopEvent(result=index)`.  The context is not written. -/
def RAGWorkflow.ingest (env : Env) (ctx : SharedContext String)
    (ev : StartPayload) : SharedContext String × Option Event :=
  match ev.dirname with
  | none => (ctx, none)
  | some dirname =>
    if dirname = "" then (ctx, none)
    else
      let documents := env.loadData dirname
      let index := env.buildIndex documents
      (ctx, some (Event.stop (StopResult.index index)))

/-- `RAGWorkflow.retrieve`: reads `query` and `index` from the start
payload; returns `None` when `query` is falsy; otherwise stores the query
under the context key "query", then returns `None` when `index` is `None`,
else retrieves nodes and returns `RetrieverEvent(nodes=nodes)`. -/
def RAGWorkflow.retrieve (env : Env) (ctx : SharedContext String)
    (ev : StartPayload) : SharedContext String × Option Event :=
  match ev.query with
  | none => (ctx, none)
  | some query =>
    if query = "" then (ctx, none)
    else
      let ctx' := SharedContext.set ctx "query" query
      match ev.index with
      | none => (ctx', none)
      | some index =>
        let nodes := env.retrieveNodes index query
        (ctx', some (Event.retriever nodes))

/-- `RAGWorkflow.rerank`: reranks the retrieved nodes against the query
read from the context with `get("query", default=None)` and always returns
`RerankEvent(nodes=new_nodes)`. -/
def RAGWorkflow.rerank (env : Env) (ctx : SharedContext String)
    (nodes : List Node) : SharedContext String × Event :=
  let new_nodes := env.rerankNodes nodes (SharedContext.getOpt ctx "query")
  (ctx, Event.rerank new_nodes)

/-- `RAGWorkflow.synthesize`: reads the query from the context with
`get("query", default=None)`, synthesizes a response over the reranked
nodes and returns `StopEvent(result=response)`. -/
def RAGWorkflow.synthesize (env : Env) (ctx : SharedContext String)
    (nodes : List Node) : SharedContext String × Event :=
  let query := SharedContext.getOpt ctx "query"
  let response := env.synthesizeResp query nodes
  (ctx, Event.stop (StopResult.response response))

/-- Modelled from the spec: a registered step of the engine (the engine's
step table is library code absent from the sources): a name, the accepted
event kind, and the body `(SharedContext, Event) -> Event | None`, here
also threading the context it may have written. -/
structure Step where
  name : String
  accepts : Kind
  body : SharedContext String → Event → SharedContext String × Option Event

/-- A record of one step invocation during a run: the step's name, the
context and event it was invoked with, and the event it returned (if any). -/
structure Invocation where
  stepName : String
  ctx : SharedContext String
  input : Event
  output : Option Event

/-- Modelled from the spec: the engine dispatches an event to every step
whose accepted kind matches the event's kind, collecting the produced
events in step-declaration order and threading the shared context. -/
def dispatchRound (ctx : SharedContext String) (e : Event) :
    List Step → SharedContext String × List Event × List Invocation
  | [] => (ctx, [], [])
  | st :: rest =>
    if st.accepts = e.kind then
      let r := st.body ctx e
      let tail := dispatchRound r.1 e rest
      (tail.1, r.2.toList ++ tail.2.1, ⟨st.name, ctx, e, r.2⟩ :: tail.2.2)
    else dispatchRound ctx e rest

/-- The outcome of a run: a Stop event's payload, or the
`NoTerminationError` raised when the work queue drains without a Stop. -/
inductive RunResult
  | completed (result : StopResult)
  | noTermination
deriving DecidableEq

/-- The first Stop event in a list of produced events, if any. -/
def findStop : List Event → Option StopResult
  | [] => none
  | Event.stop r :: _ => some r
  | _ :: rest => findStop rest

/-- Modelled from the spec: the engine's dispatch loop is library code
absent from the sources.  It pops an event from the work queue, dispatches
it to all matching steps, terminates with the first Stop event produced
(remaining enqueued events are not dispatched), enqueues the other
produced events, and fails with `NoTerminationError` when the queue
empties.  `fuel` bounds the number of dispatch rounds (`none` = out of
fuel); it also returns the invocation trace and the final context. -/
def runLoop (steps : List Step) :
    Nat → SharedContext String → List Event →
    List Invocation × SharedContext String × Option RunResult
  | _, ctx, [] => ([], ctx, some RunResult.noTermination)
  | 0, ctx, _ :: _ => ([], ctx, none)
  | fuel + 1, ctx, e :: rest =>
    let d := dispatchRound ctx e steps
    match findStop d.2.1 with
    | some r => (d.2.2, d.1, some (RunResult.completed r))
    | none =>
      let next := runLoop steps fuel d.1 (rest ++ d.2.1)
      (d.2.2 ++ next.1, next.2.1, next.2.2)

/-- Modelled from the spec: `w.run(...)` creates a fresh SharedContext,
wraps the payload in a Start event and drives the dispatch loop. -/
def run (steps : List Step) (fuel : Nat) (payload : StartPayload) :
    List Invocation × SharedContext String × Option RunResult :=
  runLoop steps fuel SharedContext.empty [Event.start payload]

/-- The `ingest` step as registered by the `@step` decorator: accepts
`StartEvent`, body is `RAGWorkflow.ingest`. -/
def ingestStep (env : Env) : Step :=
  ⟨"ingest", Kind.startK, fun ctx e =>
    match e with
    | Event.start p => RAGWorkflow.ingest env ctx p
    | _ => (ctx, none)⟩

/-- The `retrieve` step as registered: accepts `StartEvent`, body is
`RAGWorkflow.retrieve`. -/
def retrieveStep (env : Env) : Step :=
  ⟨"retrieve", Kind.startK, fun ctx e =>
    match e with
    | Event.start p => RAGWorkflow.retrieve env ctx p
    | _ => (ctx, none)⟩

/-- The `rerank` step as registered: accepts `RetrieverEvent`, body is
`RAGWorkflow.rerank` (which always returns an event). -/
def rerankStep (env : Env) : Step :=
  ⟨"rerank", Kind.retrieverK, fun ctx e =>
    match e with
    | Event.retriever nodes =>
      let r := RAGWorkflow.rerank env ctx nodes
      (r.1, some r.2)
    | _ => (ctx, none)⟩

/-- The `synthesize` step as registered: accepts `RerankEvent`, body is
`RAGWorkflow.synthesize` (which always returns a Stop event). -/
def synthesizeStep (env : Env) : Step :=
  ⟨"synthesize", Kind.rerankK, fun ctx e =>
    match e with
    | Event.rerank nodes =>
      let r := RAGWorkflow.synthesize env ctx nodes
      (r.1, some r.2)
    | _ => (ctx, none)⟩

/-- The `RAGWorkflow`'s step table, in declaration order. -/
def ragSteps (env : Env) : List Step :=
  [ingestStep env, retrieveStep env, rerankStep env, synthesizeStep env]

/-- A concrete environment of external services, used to instantiate the
universally quantified theorems at evaluable inputs. -/
def sampleEnv : Env where
  loadData := fun _ => ["doc1", "doc2"]
  buildIndex := fun docs => docs.length
  retrieveNodes := fun _ q => [q ++ "-hit1", q ++ "-hit2"]
  rerankNodes := fun nodes _ => nodes.take 1
  synthesizeResp := fun _ _ => "a response"

end Rag

namespace Rag

/-- Helper: reading a key from a context after applying a history of `set`
operations yields the last value the history wrote to that key, falling
back to the original context when the history never touched it. -/
theorem applyOps_apply {α : Type} (ops : List (String × α)) (ctx : SharedContext α)
    (k : String) :
    applyOps ops ctx k = (lastSet k ops <|> ctx k) := by
  induction ops generalizing ctx with
  | nil => simp [applyOps, lastSet]
  | cons pr rest ih =>
    obtain ⟨k', v⟩ := pr
    rw [applyOps, ih]
    cases h : lastSet k rest with
    | some w => simp [lastSet, h]
    | none =>
      simp only [lastSet, h, Option.none_orElse]
      by_cases hk : k = k'
      · simp [SharedContext.set, hk]
      · have hk' : ¬ k' = k := fun he => hk he.symm
        simp [SharedContext.set, hk, hk']

/-- Helper: a history none of whose operations target key `k` writes
nothing to `k`. -/
theorem lastSet_eq_none {α : Type} (k : String) (ops : List (String × α))
    (h : ∀ pr ∈ ops, pr.1 ≠ k) : lastSet k ops = none := by
  induction ops with
  | nil => rfl
  | cons pr rest ih =>
    obtain ⟨k', v⟩ := pr
    rw [lastSet, ih (fun q hq => h q (List.mem_cons_of_mem _ hq))]
    simp only
    rw [if_neg (h ⟨k', v⟩ (List.mem_cons_self _ _))]

/-- Claim C1: with the two Start-accepting steps keyed on the disjoint
payload fields `dirname` and `query`, a run with payload carrying only a
truthy `dirname` lets only the ingest step produce an event and completes
with the built index as the Stop result, while a run with a truthy `query`
and an index lets only the retrieve step among the Start-accepting steps
produce an event (ingest is invoked but returns no event), and the
RetrieverEvent it produces is consumed downstream by the rerank step. -/
theorem claim_C1 (env : Env) (d q : String) (idx : Index) (fuel : Nat)
    (hd : d ≠ "") (hq : q ≠ "") :
    ((run (ragSteps env) (fuel + 1) ⟨some d, none, none⟩).2.2 =
        some (RunResult.completed (StopResult.index (env.buildIndex (env.loadData d)))) ∧
      ∀ inv ∈ (run (ragSteps env) (fuel + 1) ⟨some d, none, none⟩).1,
        inv.output ≠ none → inv.stepName = "ingest") ∧
    ((∀ inv ∈ (run (ragSteps env) (fuel + 3) ⟨none, some q, some idx⟩).1,
        Event.kind inv.input = Kind.startK → inv.output ≠ none →
          inv.stepName = "retrieve") ∧
      (∃ inv ∈ (run (ragSteps env) (fuel + 3) ⟨none, some q, some idx⟩).1,
        inv.stepName = "ingest" ∧ inv.output = none) ∧
      (∃ inv ∈ (run (ragSteps env) (fuel + 3) ⟨none, some q, some idx⟩).1,
        inv.stepName = "rerank" ∧
          inv.input = Event.retriever (env.retrieveNodes idx q))) := by
  refine ⟨⟨?_, ?_⟩, ?_, ?_, ?_⟩ <;>
    simp [run, runLoop, dispatchRound, ragSteps, ingestStep, retrieveStep, rerankStep,
      synthesizeStep, RAGWorkflow.ingest, RAGWorkflow.retrieve, RAGWorkflow.rerank,
      RAGWorkflow.synthesize, Event.kind, findStop, hd, hq,
      SharedContext.set, SharedContext.getOpt, SharedContext.empty]

/-- Witness for C1 at the sample environment, with `dirname` run payload
`data` and query-run payload `q` over index 7. -/
theorem claim_C1_witness :
    ("data" ≠ "" ∧ "q" ≠ "") ∧
    (run (ragSteps sampleEnv) 1 ⟨some "data", none, none⟩).2.2 =
      some (RunResult.completed
        (StopResult.index (sampleEnv.buildIndex (sampleEnv.loadData "data")))) :=
  ⟨⟨by decide, by decide⟩,
    (claim_C1 sampleEnv "data" "q" 7 0 (by decide) (by decide)).1.1⟩

/-- Claim C2: in a run whose Start payload carries a non-empty query and an
index, every invocation of the rerank step observes exactly that query
under the SharedContext key "query", and the run's Stop payload is the
response the synthesizer derives from the reranked nodes, which is
non-empty whenever the opaque synthesizer service produces non-empty
responses. -/
theorem claim_C2 (env : Env) (q : String) (idx : Index) (fuel : Nat)
    (hq : q ≠ "") (hsyn : ∀ qo ns, env.synthesizeResp qo ns ≠ "") :
    (∀ inv ∈ (run (ragSteps env) (fuel + 3) ⟨none, some q, some idx⟩).1,
        inv.stepName = "rerank" → SharedContext.getOpt inv.ctx "query" = some q) ∧
    (run (ragSteps env) (fuel + 3) ⟨none, some q, some idx⟩).2.2 =
      some (RunResult.completed (StopResult.response
        (env.synthesizeResp (some q)
          (env.rerankNodes (env.retrieveNodes idx q) (some q))))) ∧
    env.synthesizeResp (some q) (env.rerankNodes (env.retrieveNodes idx q) (some q)) ≠ "" := by
  refine ⟨?_, ?_, hsyn _ _⟩ <;>
    simp [run, runLoop, dispatchRound, ragSteps, ingestStep, retrieveStep, rerankStep,
      synthesizeStep, RAGWorkflow.ingest, RAGWorkflow.retrieve, RAGWorkflow.rerank,
      RAGWorkflow.synthesize, Event.kind, findStop, hq,
      SharedContext.set, SharedContext.getOpt, SharedContext.empty]

/-- Witness for C2 at the sample environment: the query run completes with
the synthesized response. -/
theorem claim_C2_witness :
    (run (ragSteps sampleEnv) 3 ⟨none, some "q", some 7⟩).2.2 =
      some (RunResult.completed (StopResult.response "a response")) :=
  ((claim_C2 sampleEnv "q" 7 0 (by decide)
      (by intro qo ns; simp [sampleEnv])).2.1).trans (by decide)

/-- Claim C3: a Start-accepting step whose expected payload field is absent
or falsy returns no event and does not fail (both bodies are total):
ingest returns None when `dirname` is missing or falsy, retrieve returns
None when `query` is missing or falsy, and neither writes the context. -/
theorem claim_C3 (env : Env) (ctx : SharedContext String) (p : StartPayload) :
    (truthyStr p.dirname = false → RAGWorkflow.ingest env ctx p = (ctx, none)) ∧
    (truthyStr p.query = false → RAGWorkflow.retrieve env ctx p = (ctx, none)) := by
  constructor
  · intro h
    match hd : p.dirname with
    | none => simp [RAGWorkflow.ingest, hd]
    | some s =>
      rw [hd] at h
      simp [truthyStr] at h
      simp [RAGWorkflow.ingest, hd, h]
  · intro h
    match hq : p.query with
    | none => simp [RAGWorkflow.retrieve, hq]
    | some s =>
      rw [hq] at h
      simp [truthyStr] at h
      simp [RAGWorkflow.retrieve, hq, h]

/-- Witness for C3: ingest on a payload without `dirname` and retrieve on a
payload without `query` both return no event. -/
theorem claim_C3_witness :
    RAGWorkflow.ingest sampleEnv SharedContext.empty ⟨none, some "q", none⟩ =
      (SharedContext.empty, none) ∧
    RAGWorkflow.retrieve sampleEnv SharedContext.empty ⟨some "d", none, none⟩ =
      (SharedContext.empty, none) :=
  ⟨(claim_C3 sampleEnv SharedContext.empty ⟨none, some "q", none⟩).1 (by decide),
    (claim_C3 sampleEnv SharedContext.empty ⟨some "d", none, none⟩).2 (by decide)⟩

/-- Claim C4: when neither `dirname` nor `query` is present and truthy in
the Start payload, both entry steps return no event, the work queue drains,
and the run fails with NoTerminationError. -/
theorem claim_C4 (env : Env) (fuel : Nat) (p : StartPayload)
    (hd : truthyStr p.dirname = false) (hq : truthyStr p.query = false) :
    (run (ragSteps env) (fuel + 1) p).2.2 = some RunResult.noTermination := by
  obtain ⟨pd, pq, pi⟩ := p
  have hd' : pd = none ∨ pd = some "" := by
    cases pd with
    | none => exact Or.inl rfl
    | some s => simp [truthyStr] at hd; simp [hd]
  have hq' : pq = none ∨ pq = some "" := by
    cases pq with
    | none => exact Or.inl rfl
    | some s => simp [truthyStr] at hq; simp [hq]
  rcases hd' with rfl | rfl <;> rcases hq' with rfl | rfl <;>
    simp [run, runLoop, dispatchRound, ragSteps, ingestStep, retrieveStep, rerankStep,
      synthesizeStep, RAGWorkflow.ingest, RAGWorkflow.retrieve, Event.kind, findStop]

/-- Witness for C4: the empty payload drains the queue without a Stop. -/
theorem claim_C4_witness :
    (run (ragSteps sampleEnv) 1 ⟨none, none, none⟩).2.2 =
      some RunResult.noTermination :=
  claim_C4 sampleEnv 0 ⟨none, none, none⟩ (by decide) (by decide)

/-- Claim C5: a `set(k, v)` followed by `get(k, d)` returns `v`, with any
linearized history of operations on keys other than `k` interleaved in
between (gets are pure reads of the map, so only the interleaved sets are
material). -/
theorem claim_C5 {α : Type} (ctx : SharedContext α) (k : String) (v d : α)
    (ops : List (String × α)) (h : ∀ pr ∈ ops, pr.1 ≠ k) :
    SharedContext.get (applyOps ops (SharedContext.set ctx k v)) k d = v := by
  rw [SharedContext.get, applyOps_apply, lastSet_eq_none k ops h]
  simp [SharedContext.set]

/-- Witness for C5: a write to key `k` survives an interleaved write to an
unrelated key. -/
theorem claim_C5_witness :
    SharedContext.get
      (applyOps [("other", 1)] (SharedContext.set SharedContext.empty "k" 0)) "k" 5 = 0 :=
  claim_C5 SharedContext.empty "k" 0 5 [("other", 1)] (by decide)

/-- Claim C6: `get(key, default)` returns the stored value when the key is
present and the supplied default when it is absent; it is a total function,
so it never raises for a missing key.  The third conjunct characterizes it
over any history of sets applied to the fresh context: the result is the
last value set for the key, or the default if no operation targeted it. -/
theorem claim_C6 {α : Type} (ctx : SharedContext α) (k : String) (d : α)
    (ops : List (String × α)) :
    (∀ v, ctx k = some v → SharedContext.get ctx k d = v) ∧
    (ctx k = none → SharedContext.get ctx k d = d) ∧
    SharedContext.get (applyOps ops SharedContext.empty) k d = (lastSet k ops).getD d := by
  refine ⟨fun v hv => by rw [SharedContext.get, hv]; rfl,
    fun hn => by rw [SharedContext.get, hn]; rfl, ?_⟩
  rw [SharedContext.get, applyOps_apply]
  cases lastSet k ops <;> simp [SharedContext.empty]

/-- Witness for C6: present key, absent key, and a two-operation history. -/
theorem claim_C6_witness :
    SharedContext.get (SharedContext.set (SharedContext.empty (α := Nat)) "k" 3) "k" 9 = 3 ∧
    SharedContext.get (SharedContext.empty (α := Nat)) "k" 9 = 9 ∧
    SharedContext.get (applyOps [("a", 1), ("k", 2)] SharedContext.empty) "k" 9 = 2 :=
  ⟨(claim_C6 (SharedContext.set SharedContext.empty "k" 3) "k" 9 []).1 3 (by decide),
    (claim_C6 (SharedContext.empty (α := Nat)) "k" 9 []).2.1 (by decide),
    ((claim_C6 (SharedContext.empty (α := Nat)) "k" 9 [("a", 1), ("k", 2)]).2.2).trans
      (by decide)⟩

/-- Claim C7: once a dispatch round produces a Stop event, the run
terminates with that event's payload as its result: the trace is exactly
that round's invocations and the remaining enqueued events (`rest`) are
never dispatched, whatever they are and however much fuel remains. -/
theorem claim_C7 (steps : List Step) (fuel : Nat) (ctx : SharedContext String)
    (e : Event) (rest : List Event) (r : StopResult)
    (h : findStop (dispatchRound ctx e steps).2.1 = some r) :
    runLoop steps (fuel + 1) ctx (e :: rest) =
      ((dispatchRound ctx e steps).2.2, (dispatchRound ctx e steps).1,
        some (RunResult.completed r)) := by
  simp only [runLoop, h]

/-- Witness for C7: an ingest run terminates on the Stop produced in the
first round and abandons a second enqueued Start event. -/
theorem claim_C7_witness :
    findStop (dispatchRound SharedContext.empty
      (Event.start ⟨some "data", none, none⟩) (ragSteps sampleEnv)).2.1 =
        some (StopResult.index 2) ∧
    runLoop (ragSteps sampleEnv) 1 SharedContext.empty
      [Event.start ⟨some "data", none, none⟩, Event.start ⟨none, some "x", some 3⟩] =
      ((dispatchRound SharedContext.empty
          (Event.start ⟨some "data", none, none⟩) (ragSteps sampleEnv)).2.2,
        (dispatchRound SharedContext.empty
          (Event.start ⟨some "data", none, none⟩) (ragSteps sampleEnv)).1,
        some (RunResult.completed (StopResult.index 2))) :=
  ⟨by decide,
    claim_C7 (ragSteps sampleEnv) 0 SharedContext.empty
      (Event.start ⟨some "data", none, none⟩)
      [Event.start ⟨none, some "x", some 3⟩] (StopResult.index 2) (by decide)⟩

/-- Claim C8: every event a step produces is of a kind declared in that
step's output annotation: ingest yields only a Stop event or no event,
retrieve only a RetrieverEvent or no event, rerank always a RerankEvent,
and synthesize always a Stop event. -/
theorem claim_C8 (env : Env) (ctx : SharedContext String) (p : StartPayload)
    (nodes : List Node) :
    (∀ e, (RAGWorkflow.ingest env ctx p).2 = some e → Event.kind e = Kind.stopK) ∧
    (∀ e, (RAGWorkflow.retrieve env ctx p).2 = some e → Event.kind e = Kind.retrieverK) ∧
    Event.kind (RAGWorkflow.rerank env ctx nodes).2 = Kind.rerankK ∧
    Event.kind (RAGWorkflow.synthesize env ctx nodes).2 = Kind.stopK := by
  refine ⟨?_, ?_, rfl, rfl⟩
  · intro e he
    match hd : p.dirname with
    | none => simp [RAGWorkflow.ingest, hd] at he
    | some s =>
      by_cases hs : s = "" <;> simp [RAGWorkflow.ingest, hd, hs] at he
      subst he; rfl
  · intro e he
    match hq : p.query with
    | none => simp [RAGWorkflow.retrieve, hq] at he
    | some s =>
      by_cases hs : s = ""
      · simp [RAGWorkflow.retrieve, hq, hs] at he
      · match hi : p.index with
        | none => simp [RAGWorkflow.retrieve, hq, hs, hi] at he
        | some i =>
          simp [RAGWorkflow.retrieve, hq, hs, hi] at he
          subst he; rfl

/-- Witness for C8: the events ingest and retrieve actually produce at the
sample environment have the declared kinds. -/
theorem claim_C8_witness :
    Event.kind (Event.stop (StopResult.index 2)) = Kind.stopK ∧
    Event.kind (Event.retriever ["q-hit1", "q-hit2"]) = Kind.retrieverK :=
  ⟨(claim_C8 sampleEnv SharedContext.empty ⟨some "data", none, none⟩ []).1
      (Event.stop (StopResult.index 2)) (by decide),
    (claim_C8 sampleEnv SharedContext.empty ⟨none, some "q", some 7⟩ []).2.1
      (Event.retriever ["q-hit1", "q-hit2"]) (by decide)⟩

/-- Claim C9: with a truthy query but no index in the Start payload,
retrieve first writes the query under the context key "query" and then
returns no event instead of raising; consequently no RetrieverEvent is
produced anywhere in such a run and the query write is still visible in
the run's final context. -/
theorem claim_C9 (env : Env) (ctx : SharedContext String) (q : String)
    (fuel : Nat) (dn : Option String) (hq : q ≠ "") :
    RAGWorkflow.retrieve env ctx ⟨dn, some q, none⟩ =
      (SharedContext.set ctx "query" q, none) ∧
    (∀ inv ∈ (run (ragSteps env) (fuel + 1) ⟨dn, some q, none⟩).1,
      ∀ ns, inv.output ≠ some (Event.retriever ns)) ∧
    SharedContext.getOpt (run (ragSteps env) (fuel + 1) ⟨dn, some q, none⟩).2.1 "query" =
      some q := by
  refine ⟨by simp [RAGWorkflow.retrieve, hq], ?_, ?_⟩ <;>
  · match dn with
    | none =>
      simp [run, runLoop, dispatchRound, ragSteps, ingestStep, retrieveStep, rerankStep,
        synthesizeStep, RAGWorkflow.ingest, RAGWorkflow.retrieve, Event.kind, findStop,
        hq, SharedContext.set, SharedContext.getOpt, SharedContext.empty]
    | some dv =>
      by_cases hdv : dv = "" <;>
        simp [run, runLoop, dispatchRound, ragSteps, ingestStep, retrieveStep, rerankStep,
          synthesizeStep, RAGWorkflow.ingest, RAGWorkflow.retrieve, Event.kind, findStop,
          hq, hdv, SharedContext.set, SharedContext.getOpt, SharedContext.empty]

/-- Witness for C9: the query-without-index run stores the query and
produces no RetrieverEvent. -/
theorem claim_C9_witness :
    RAGWorkflow.retrieve sampleEnv SharedContext.empty ⟨none, some "q", none⟩ =
      (SharedContext.set SharedContext.empty "query" "q", none) ∧
    SharedContext.getOpt (run (ragSteps sampleEnv) 1 ⟨none, some "q", none⟩).2.1
      "query" = some "q" :=
  ⟨(claim_C9 sampleEnv SharedContext.empty "q" 0 none (by decide)).1,
    (claim_C9 sampleEnv SharedContext.empty "q" 0 none (by decide)).2.2⟩

/-- Claim C10: whenever the Start payload's `dirname` is present and truthy
(and the opaque loader and index builder, modelled as total functions,
succeed), ingest returns a Stop event carrying the built index — never no
event — and the run terminates via Stop with that index rather than with
NoTerminationError, whatever the other payload fields are. -/
theorem claim_C10 (env : Env) (ctx : SharedContext String) (p : StartPayload)
    (d : String) (fuel : Nat) (hd : p.dirname = some d) (hne : d ≠ "") :
    (RAGWorkflow.ingest env ctx p).2 =
      some (Event.stop (StopResult.index (env.buildIndex (env.loadData d)))) ∧
    (run (ragSteps env) (fuel + 1) p).2.2 =
      some (RunResult.completed (StopResult.index (env.buildIndex (env.loadData d)))) := by
  obtain ⟨pd, pq, pi⟩ := p
  simp only at hd
  subst hd
  constructor
  · simp [RAGWorkflow.ingest, hne]
  · match pq with
    | none =>
      simp [run, runLoop, dispatchRound, ragSteps, ingestStep, retrieveStep, rerankStep,
        synthesizeStep, RAGWorkflow.ingest, RAGWorkflow.retrieve, Event.kind, findStop, hne]
    | some qv =>
      by_cases hqv : qv = ""
      · simp [run, runLoop, dispatchRound, ragSteps, ingestStep, retrieveStep, rerankStep,
          synthesizeStep, RAGWorkflow.ingest, RAGWorkflow.retrieve, Event.kind, findStop,
          hne, hqv]
      · match pi with
        | none =>
          simp [run, runLoop, dispatchRound, ragSteps, ingestStep, retrieveStep, rerankStep,
            synthesizeStep, RAGWorkflow.ingest, RAGWorkflow.retrieve, Event.kind, findStop,
            hne, hqv]
        | some iv =>
          simp [run, runLoop, dispatchRound, ragSteps, ingestStep, retrieveStep, rerankStep,
            synthesizeStep, RAGWorkflow.ingest, RAGWorkflow.retrieve, Event.kind, findStop,
            hne, hqv]

/-- Witness for C10: a payload with both `dirname` and `query` present
still terminates via the ingest Stop carrying the built index. -/
theorem claim_C10_witness :
    (run (ragSteps sampleEnv) 1 ⟨some "data", some "q", some 5⟩).2.2 =
      some (RunResult.completed
        (StopResult.index (sampleEnv.buildIndex (sampleEnv.loadData "data")))) :=
  (claim_C10 sampleEnv SharedContext.empty ⟨some "data", some "q", some 5⟩
    "data" 0 (by decide) (by decide)).2

end Rag
